import Mathlib

/-
Verification of the Konferencja companies CRUD backend (src/app.py).
SQLite values are modelled by the inductive type Value (NULL, INTEGER, TEXT);
rows and JSON objects are association lists from column names to values.
Python dict.get, truthiness, str(), strip(), lower() and int() are embedded
as explicit functions below.
-/

/-- SQLite storage class of a cell: NULL, INTEGER or TEXT. -/
inductive Value where
  | vNull : Value
  | vInt : Int → Value
  | vText : String → Value
deriving DecidableEq, Repr

open Value

/-- Row of the companies table, and also a parsed JSON object body. -/
abbrev Row := List (String × Value)

/-- Lookup of a key in a row; none models a missing key. -/
def rowGet : Row → String → Option Value
  | [], _ => none
  | (k, v) :: rest, key => if k = key then some v else rowGet rest key

/-- Python row_dict.get(key) with no default: a missing key yields None,
modelled here as vNull (both serialize to JSON null). -/
def pyGet (r : Row) (k : String) : Value := (rowGet r k).getD vNull

/-- Python row_dict.get(key, d): the default d applies only when the key is
absent, a stored NULL is returned as is. -/
def pyGetD (r : Row) (k : String) (d : Value) : Value := (rowGet r k).getD d

/-- Python truthiness of a cell value: None and 0 and the empty string are
falsy, everything else truthy. -/
def pyTruthy : Value → Bool
  | vNull => false
  | vInt i => decide (i ≠ 0)
  | vText s => decide (s ≠ "")

/-- Whitespace characters removed by Python str.strip() (ASCII range). -/
def isPySpace (c : Char) : Bool :=
  c = ' ' || c = '\t' || c = '\n' || c = '\r' || c = '\x0b' || c = '\x0c'

/-- Python str.strip() on a character list. -/
def pyStripL (l : List Char) : List Char :=
  ((l.dropWhile isPySpace).reverse.dropWhile isPySpace).reverse

/-- Python str.strip(). -/
def pyStrip (s : String) : String := String.mk (pyStripL s.toList)

/-- Python str.lower(), restricted to the ASCII letters used by the
priority tokens. -/
def pyLower (s : String) : String := String.mk (s.toList.map Char.toLower)

/-- Decimal digits of a natural number, most significant first. -/
def natDigits (n : Nat) : List Char :=
  if n < 10 then [Char.ofNat (48 + n)]
  else natDigits (n / 10) ++ [Char.ofNat (48 + n % 10)]
termination_by n
decreasing_by exact Nat.div_lt_self (by omega) (by omega)

/-- Python str(i) for an integer. -/
def pyStrInt (i : Int) : String :=
  if i < 0 then "-" ++ String.mk (natDigits i.natAbs)
  else String.mk (natDigits i.natAbs)

/-- Python str(v) applied to a cell value. -/
def pyStr : Value → String
  | vNull => "None"
  | vInt i => pyStrInt i
  | vText s => s

/-- Values the sqlite3 driver can bind as a parameter: None, str, and ints
within the signed 64-bit SQLite INTEGER range; a larger int raises
OverflowError at execute time. -/
def storable : Value → Bool
  | vNull => true
  | vText _ => true
  | vInt i => decide (-(2 ^ 63) ≤ i) && decide (i < 2 ^ 63)

/-- SQLite equality comparison between two cell values: NULL compares equal
to nothing, and INTEGER and TEXT are distinct storage classes that never
compare equal to each other. -/
def sqliteEq : Value → Value → Bool
  | vNull, _ => false
  | _, vNull => false
  | vInt i, vInt j => decide (i = j)
  | vText s, vText t => decide (s = t)
  | vInt _, vText _ => false
  | vText _, vInt _ => false

/-- Continuation of the Python int(str) parse after the first digit:
digits, with single underscores allowed between digits. -/
def parseDigitsRest (acc : Nat) : List Char → Option Nat
  | [] => some acc
  | '_' :: c :: cs =>
      if c.isDigit then parseDigitsRest (acc * 10 + (c.toNat - 48)) cs else none
  | '_' :: [] => none
  | c :: cs =>
      if c.isDigit then parseDigitsRest (acc * 10 + (c.toNat - 48)) cs else none

/-- Digit-run parse of Python int(str): requires a leading digit. -/
def parseDigitsU : List Char → Option Nat
  | [] => none
  | c :: cs => if c.isDigit then parseDigitsRest (c.toNat - 48) cs else none

/-- Python int(s) on a string: surrounding whitespace is stripped, an
optional sign is accepted, then a nonempty digit run; none models the
ValueError raised on anything else. -/
def pyParseInt (s : String) : Option Int :=
  match pyStripL s.toList with
  | '+' :: rest => (parseDigitsU rest).map (fun n => (n : Int))
  | '-' :: rest => (parseDigitsU rest).map (fun n => -(n : Int))
  | rest => (parseDigitsU rest).map (fun n => (n : Int))

/-- Rarity normalization from transform_company_data: the raw value of the
column czy_warto_sie_zainteresowac is passed through int(); values 0, 1, 2
are kept, anything else (including a parse failure) collapses to 0. -/
def rarity_of : Option Value → Int
  | none => 0
  | some vNull => 0
  | some (vInt i) => if i = 0 ∨ i = 1 ∨ i = 2 then i else 0
  | some (vText s) =>
      match pyParseInt s with
      | none => 0
      | some k => if k = 0 ∨ k = 1 ∨ k = 2 then k else 0

/-- Hook extraction for one key: the value must be truthy and strip to a
nonempty string; the appended element is str(value).strip(). -/
def hook_of (r : Row) (k : String) : Option String :=
  match rowGet r k with
  | none => none
  | some v =>
      if pyTruthy v && decide (pyStrip (pyStr v) ≠ "") then some (pyStrip (pyStr v))
      else none

/-- Hooks list built from zaczepka1, zaczepka2, zaczepka3 in order. -/
def hooks_of (r : Row) : List String :=
  ["zaczepka1", "zaczepka2", "zaczepka3"].filterMap (hook_of r)

/-- Short description derivation from transform_company_data: when the raw
description is truthy and its str() form is longer than 100 characters the
code slices the raw value, which raises TypeError when that value is not a
string; otherwise the raw value (defaulted to the empty string) or the
fallback placeholder is used. -/
def shortDescription_of (r : Row) : Except String Value :=
  let dOpt := rowGet r "czym_zajmuje_sie_firma"
  let dv := dOpt.getD (vText "")
  if (match dOpt with | some v => pyTruthy v | none => false)
      && decide ((pyStr dv).length > 100) then
    match dv with
    | vText s => Except.ok (vText (String.mk (s.toList.take 100) ++ "..."))
    | _ => Except.error "TypeError"
  else
    Except.ok (if pyTruthy dv then dv else vText "Sprawdź szczegóły")

/-- API-shaped company record produced by transform_company_data. -/
structure Company where
  cid : Value
  name : Value
  boothNumber : Value
  country : Value
  positions : List String
  shortDescription : Value
  description : Value
  problems : Value
  opportunities : Value
  rarity : Int
  hooks : List String
deriving DecidableEq, Repr

/-- Embedding of transform_company_data: maps one raw row to the API shape;
an error models a raised exception (only the description slice can raise). -/
def transform_company_data (r : Row) : Except String Company :=
  match shortDescription_of r with
  | Except.error e => Except.error e
  | Except.ok sd =>
      Except.ok
        ⟨pyGet r "id",
         pyGetD r "company" (vText ""),
         pyGetD r "stand" (vText ""),
         pyGetD r "country" (vText ""),
         ["Sprawdź na miejscu"],
         sd,
         pyGetD r "czym_zajmuje_sie_firma" (vText ""),
         pyGetD r "problemy_i_wyzwania" (vText ""),
         pyGetD r "mozliwosci_AI_i_danych" (vText ""),
         rarity_of (rowGet r "czy_warto_sie_zainteresowac"),
         hooks_of r⟩

/-- Database state: the companies table rows plus the rowid counter SQLite
uses to assign the next inserted id. -/
structure DB where
  rows : List Row
  nextId : Int
deriving Repr

/-- Responses a route handler can produce, by status code and payload. -/
inductive ApiResponse where
  | ok200 : Company → ApiResponse
  | okMsg200 : ApiResponse
  | created201 : Int → ApiResponse
  | err400 : ApiResponse
  | err404 : ApiResponse
  | err500 : ApiResponse
deriving DecidableEq, Repr

/-- SQL predicate id = ? with the path id bound as an INTEGER parameter. -/
def rowIdMatches (r : Row) (cid : Int) : Bool := sqliteEq (pyGet r "id") (vInt cid)

/-- Column order of the INSERT statement in add_company. -/
def insertCols : List String :=
  ["company", "country", "stand", "czym_zajmuje_sie_firma",
   "problemy_i_wyzwania", "mozliwosci_AI_i_danych", "zaczepka1",
   "zaczepka2", "zaczepka3", "czy_warto_sie_zainteresowac"]

/-- Parameter tuple bound by add_company: data.get for each field, with
default 0 for the priority column only. -/
def addParams (data : Row) : List Value :=
  [pyGet data "company", pyGet data "country", pyGet data "stand",
   pyGet data "czym_zajmuje_sie_firma", pyGet data "problemy_i_wyzwania",
   pyGet data "mozliwosci_AI_i_danych", pyGet data "zaczepka1",
   pyGet data "zaczepka2", pyGet data "zaczepka3",
   pyGetD data "czy_warto_sie_zainteresowac" (vInt 0)]

/-- Row produced by the INSERT of add_company, with the assigned rowid. -/
def newRowOf (nid : Int) (data : Row) : Row :=
  ("id", vInt nid) :: insertCols.zip (addParams data)

/-- Embedding of the add_company handler (POST /api/companies). The body is
none when no JSON body was supplied; connOk is false when
get_db_connection returns None; a non-storable bound parameter models the
exception raised by cursor.execute, caught and answered with 500. -/
def add_company (connOk : Bool) (body : Option Row) (db : DB) :
    ApiResponse × DB :=
  match body with
  | none => (ApiResponse.err400, db)
  | some data =>
      if decide (data = []) || !pyTruthy (pyGet data "company") then
        (ApiResponse.err400, db)
      else if !connOk then (ApiResponse.err500, db)
      else if !(addParams data).all storable then (ApiResponse.err500, db)
      else (ApiResponse.created201 db.nextId,
            ⟨db.rows ++ [newRowOf db.nextId data], db.nextId + 1⟩)

/-- Embedding of the get_company handler (GET /api/companies/id): fetchone
on SELECT * WHERE id = ?, 404 when no row matches, 500 when the transform
raises. -/
def get_company (connOk : Bool) (cid : Int) (db : DB) : ApiResponse :=
  if !connOk then ApiResponse.err500
  else
    match db.rows.find? (fun r => rowIdMatches r cid) with
    | none => ApiResponse.err404
    | some row =>
        match transform_company_data row with
        | Except.ok c => ApiResponse.ok200 c
        | Except.error _ => ApiResponse.err500

/-- Parameter tuple bound by update_company: data.get for each field with
no defaults, so an absent field overwrites the column with NULL. -/
def updParams (data : Row) : List Value :=
  [pyGet data "company", pyGet data "country", pyGet data "stand",
   pyGet data "czym_zajmuje_sie_firma", pyGet data "problemy_i_wyzwania",
   pyGet data "mozliwosci_AI_i_danych", pyGet data "zaczepka1",
   pyGet data "zaczepka2", pyGet data "zaczepka3",
   pyGet data "czy_warto_sie_zainteresowac"]

/-- Overwrite of one column of a row by the UPDATE statement. -/
def setCol (r : Row) (k : String) (v : Value) : Row :=
  if (rowGet r k).isSome then
    r.map (fun p => if p.1 = k then (k, v) else p)
  else r ++ [(k, v)]

/-- Application of the full-field UPDATE SET list to one matched row. -/
def applyUpdate (r : Row) (data : Row) : Row :=
  (insertCols.zip (updParams data)).foldl (fun acc p => setCol acc p.1 p.2) r

/-- Embedding of the update_company handler (PUT /api/companies/id): 400 on
a falsy body, full-field overwrite of every row matching the id, 404 when
rowcount is 0 (checked after the statement ran, which then changed
nothing). -/
def update_company (connOk : Bool) (cid : Int) (body : Option Row) (db : DB) :
    ApiResponse × DB :=
  match body with
  | none => (ApiResponse.err400, db)
  | some data =>
      if decide (data = []) then (ApiResponse.err400, db)
      else if !connOk then (ApiResponse.err500, db)
      else if !(updParams data).all storable then (ApiResponse.err500, db)
      else
        let newRows :=
          db.rows.map (fun r => if rowIdMatches r cid then applyUpdate r data else r)
        if db.rows.countP (fun r => rowIdMatches r cid) = 0 then
          (ApiResponse.err404, ⟨newRows, db.nextId⟩)
        else (ApiResponse.okMsg200, ⟨newRows, db.nextId⟩)

/-- Embedding of the delete_company handler (DELETE /api/companies/id):
DELETE WHERE id = ?, then 404 when rowcount is 0. -/
def delete_company (connOk : Bool) (cid : Int) (db : DB) : ApiResponse × DB :=
  if !connOk then (ApiResponse.err500, db)
  else
    let remaining := db.rows.filter (fun r => !rowIdMatches r cid)
    if db.rows.countP (fun r => rowIdMatches r cid) = 0 then
      (ApiResponse.err404, ⟨remaining, db.nextId⟩)
    else (ApiResponse.okMsg200, ⟨remaining, db.nextId⟩)

/-- ASCII-case-insensitive SQLite LIKE matcher over character lists: the
percent sign matches any run of characters, underscore any single
character. -/
def likeMatchL : List Char → List Char → Bool
  | [], [] => true
  | [], _ :: _ => false
  | '%' :: ps, [] => likeMatchL ps []
  | '%' :: ps, c :: ts => likeMatchL ps (c :: ts) || likeMatchL ('%' :: ps) ts
  | '_' :: _, [] => false
  | '_' :: ps, _ :: ts => likeMatchL ps ts
  | _ :: _, [] => false
  | p :: ps, c :: ts => (p.toLower = c.toLower) && likeMatchL ps ts
termination_by p t => (p.length, t.length)

/-- SQLite column LIKE ? with a TEXT pattern: NULL yields no match, an
INTEGER operand is converted to its text form. -/
def sqlLikeVal (v : Value) (pat : String) : Bool :=
  match v with
  | vNull => false
  | vInt i => likeMatchL pat.toList (pyStrInt i).toList
  | vText s => likeMatchL pat.toList s.toList

/-- LIKE pattern built by get_companies around the search text. -/
def likePat (s : String) : String := "%" ++ s ++ "%"

/-- Priority tokens the handler treats as meaning yes. -/
def yesTokens : List String := ["tak", "yes", "1", "true", "warto"]

/-- Priority tokens the handler treats as meaning no. -/
def noTokens : List String := ["nie", "no", "0", "false"]

/-- Priority filter condition of get_companies applied to the stored value
of czy_warto_sie_zainteresowac: a yes token expands to a disjunction over
the stored TEXT representations 1, tak, yes; a no token to 0, nie, no; any
other token is compared for exact equality as a bound TEXT parameter. -/
def priorityCond (priority : String) (v : Value) : Bool :=
  if yesTokens.contains (pyLower priority) then
    sqliteEq v (vText "1") || sqliteEq v (vText "tak") || sqliteEq v (vText "yes")
  else if noTokens.contains (pyLower priority) then
    sqliteEq v (vText "0") || sqliteEq v (vText "nie") || sqliteEq v (vText "no")
  else sqliteEq v (vText priority)

/-- Search conditions list of get_companies: one LIKE predicate on the
designated column when searchBy is company or stand, otherwise none. -/
def searchConds (search searchBy : String) : List (Row → Bool) :=
  if search = "" then []
  else if searchBy = "company" then
    [fun r => sqlLikeVal (pyGet r "company") (likePat search)]
  else if searchBy = "stand" then
    [fun r => sqlLikeVal (pyGet r "stand") (likePat search)]
  else []

/-- Priority conditions list of get_companies: one predicate when the
priority parameter is nonempty. -/
def priorityConds (priority : String) : List (Row → Bool) :=
  if priority = "" then []
  else [fun r => priorityCond priority (pyGet r "czy_warto_sie_zainteresowac")]

/-- WHERE clause of get_companies: the conjunction of all accumulated
conditions (an empty list means no WHERE clause, every row matches). -/
def rowMatches (search searchBy priority : String) (r : Row) : Bool :=
  (searchConds search searchBy ++ priorityConds priority).all (fun c => c r)

/-- Outcome of the SQL work done inside the try block of a handler after
the connection was acquired: either it completes or it raises. -/
inductive ExecOutcome where
  | ok : ExecOutcome
  | raises : ExecOutcome
deriving DecidableEq, Repr

/-- Connection events of one request. -/
inductive ConnEvent where
  | acquire : ConnEvent
  | release : ConnEvent
deriving DecidableEq, Repr

/-- Number of connections still open after a list of events. -/
def openAfter (evs : List ConnEvent) : Nat :=
  evs.foldl (fun n e => match e with | ConnEvent.acquire => n + 1 | ConnEvent.release => n - 1) 0

/-- Connection trace of get_companies with the resulting status code,
following the control flow of the source: a failed get_db_connection opens
nothing and answers 500; after a successful acquire, an exception inside
the try block is caught and answered 500 with no connection.close() on
that path; the success path closes the connection. -/
def get_companies_trace (connOk : Bool) (exec : ExecOutcome) :
    List ConnEvent × Nat :=
  if !connOk then ([], 500)
  else
    match exec with
    | ExecOutcome.raises => ([ConnEvent.acquire], 500)
    | ExecOutcome.ok => ([ConnEvent.acquire, ConnEvent.release], 200)

/-- Connection trace of update_company with the resulting status code: a
falsy body answers 400 before any acquisition; a caught exception after
acquisition answers 500 without closing; the 404 and 200 paths both
close. -/
def update_company_trace (bodyOk connOk : Bool) (exec : ExecOutcome)
    (found : Bool) : List ConnEvent × Nat :=
  if !bodyOk then ([], 400)
  else if !connOk then ([], 500)
  else
    match exec with
    | ExecOutcome.raises => ([ConnEvent.acquire], 500)
    | ExecOutcome.ok =>
        if found then ([ConnEvent.acquire, ConnEvent.release], 200)
        else ([ConnEvent.acquire, ConnEvent.release], 404)

/-- Projection of a returned 200 response to the name field of its record. -/
def respName : ApiResponse → Option Value
  | ApiResponse.ok200 comp => some comp.name
  | _ => none

/-- Restriction of an optional cell to TEXT or NULL, the shapes the free
text hook columns of the data model take. -/
def textOrNull : Option Value → Bool
  | some (vInt _) => false
  | _ => true

/-- Claim side hook derivation: the trimmed values of the hook fields that
do not strip to the empty string, in field order. -/
def hooks_spec (hs : List (Option Value)) : List String :=
  hs.filterMap (fun o =>
    match o with
    | some (vText s) => if pyStrip s = "" then none else some (pyStrip s)
    | _ => none)

theorem sqliteEq_text_iff (v : Value) (t : String) :
    sqliteEq v (vText t) = true ↔ v = vText t := by
  cases v <;> simp [sqliteEq]

theorem transform_fields (r : Row) (comp : Company)
    (h : transform_company_data r = Except.ok comp) :
    comp.name = pyGetD r "company" (vText "") ∧
    comp.boothNumber = pyGetD r "stand" (vText "") ∧
    comp.country = pyGetD r "country" (vText "") ∧
    comp.hooks = hooks_of r ∧
    shortDescription_of r = Except.ok comp.shortDescription := by
  rw [transform_company_data] at h
  cases hsd : shortDescription_of r with
  | error e => rw [hsd] at h; cases h
  | ok sd => rw [hsd] at h; cases h; exact ⟨rfl, rfl, rfl, rfl, rfl⟩

theorem natDigits_length_le : ∀ (k n : Nat), 1 ≤ k → n < 10 ^ k →
    (natDigits n).length ≤ k := by
  intro k
  induction k with
  | zero => intro n h; omega
  | succ k ih =>
      intro n _ hn
      rw [natDigits]
      split
      · simp
      · next h10 =>
          rw [List.length_append, List.length_cons, List.length_nil]
          have hk1 : 1 ≤ k := by
            by_contra hk0
            have : k = 0 := by omega
            subst this
            simp at hn
            omega
          have hdiv : n / 10 < 10 ^ k := by
            apply Nat.div_lt_of_lt_mul
            rw [pow_succ] at hn
            omega
          have := ih (n / 10) hk1 hdiv
          omega

theorem pyStrInt_length_le (i : Int) (h : storable (vInt i) = true) :
    (pyStrInt i).length ≤ 100 := by
  have hb : i.natAbs ≤ 2 ^ 63 := by
    simp only [storable, Bool.and_eq_true, decide_eq_true_eq] at h
    omega
  have hlt : i.natAbs < 10 ^ 19 := by
    calc i.natAbs ≤ 2 ^ 63 := hb
    _ < 10 ^ 19 := by norm_num
  have hd : (natDigits i.natAbs).length ≤ 19 :=
    natDigits_length_le 19 i.natAbs (by omega) hlt
  rw [pyStrInt]
  split
  · rw [String.length_append]
    have hmk : (String.mk (natDigits i.natAbs)).length = (natDigits i.natAbs).length := rfl
    rw [hmk]
    have : ("-" : String).length = 1 := rfl
    omega
  · have hmk : (String.mk (natDigits i.natAbs)).length = (natDigits i.natAbs).length := rfl
    rw [hmk]
    omega

theorem shortDescription_of_ok (r : Row)
    (h : ∀ v, rowGet r "czym_zajmuje_sie_firma" = some v → storable v = true) :
    ∃ sd, shortDescription_of r = Except.ok sd := by
  rw [shortDescription_of]
  cases hv : rowGet r "czym_zajmuje_sie_firma" with
  | none => exact ⟨_, rfl⟩
  | some v =>
      cases v with
      | vNull => exact ⟨_, rfl⟩
      | vText s =>
          simp only [Option.getD_some]
          split
          · exact ⟨_, rfl⟩
          · exact ⟨_, rfl⟩
      | vInt i =>
          have hs := h (vInt i) hv
          have hlen := pyStrInt_length_le i hs
          simp only [Option.getD_some, pyStr, pyTruthy]
          have : decide ((pyStrInt i).length > 100) = false := by
            simp only [decide_eq_false_iff_not]
            omega
          rw [this, Bool.and_false]
          exact ⟨_, rfl⟩

theorem find?_append_of_none {p : Row → Bool} (l1 l2 : List Row)
    (h : ∀ a ∈ l1, p a = false) : (l1 ++ l2).find? p = l2.find? p := by
  rw [List.find?_append]
  have : l1.find? p = none := List.find?_eq_none.mpr (by intro x hx; simp [h x hx])
  rw [this, Option.none_or]

theorem rowGet_newRow_id (nid : Int) (data : Row) :
    rowGet (newRowOf nid data) "id" = some (vInt nid) := by
  simp [newRowOf, rowGet]

theorem rowGet_newRow_company (nid : Int) (data : Row) :
    rowGet (newRowOf nid data) "company" = some (pyGet data "company") := by
  simp [newRowOf, insertCols, addParams, rowGet]

theorem rowGet_newRow_desc (nid : Int) (data : Row) :
    rowGet (newRowOf nid data) "czym_zajmuje_sie_firma" =
      some (pyGet data "czym_zajmuje_sie_firma") := by
  simp [newRowOf, insertCols, addParams, rowGet]

/-- C3: rarity normalization never raises and always lands in 0, 1, 2; the
integer values 0, 1, 2 and every string that int() parses to one of them
map to themselves; every other integer, every unparseable string, every
string parsing outside 0..2, a NULL and an absent column all map to 0. -/
theorem rarity_normalization :
    (∀ v : Option Value, rarity_of v = 0 ∨ rarity_of v = 1 ∨ rarity_of v = 2) ∧
    (∀ i : Int, (i = 0 ∨ i = 1 ∨ i = 2) → rarity_of (some (vInt i)) = i) ∧
    (∀ i : Int, ¬(i = 0 ∨ i = 1 ∨ i = 2) → rarity_of (some (vInt i)) = 0) ∧
    (∀ (s : String) (k : Int), pyParseInt s = some k → (k = 0 ∨ k = 1 ∨ k = 2) →
      rarity_of (some (vText s)) = k) ∧
    (∀ s : String, pyParseInt s = none → rarity_of (some (vText s)) = 0) ∧
    (∀ (s : String) (k : Int), pyParseInt s = some k → ¬(k = 0 ∨ k = 1 ∨ k = 2) →
      rarity_of (some (vText s)) = 0) ∧
    rarity_of none = 0 ∧ rarity_of (some vNull) = 0 := by
  refine ⟨?_, ?_, ?_, ?_, ?_, ?_, rfl, rfl⟩
  · intro v
    match v with
    | none => exact Or.inl rfl
    | some vNull => exact Or.inl rfl
    | some (vInt i) =>
        rw [rarity_of]
        split
        · next h => tauto
        · exact Or.inl rfl
    | some (vText s) =>
        rw [rarity_of]
        split
        · exact Or.inl rfl
        · split
          · next h => tauto
          · exact Or.inl rfl
  · intro i h
    rw [rarity_of, if_pos h]
  · intro i h
    rw [rarity_of, if_neg h]
  · intro s k hp hk
    rw [rarity_of]
    rw [hp]
    exact if_pos hk
  · intro s hp
    rw [rarity_of, hp]
  · intro s k hp hk
    rw [rarity_of, hp]
    exact if_neg hk

/-- Concrete instances of the rarity normalization theorem. -/
theorem rarity_normalization_witness :
    rarity_of (some (vInt 2)) = 2 ∧ rarity_of (some (vText "1")) = 1 ∧
    rarity_of (some (vInt 5)) = 0 ∧ rarity_of (some (vText "abc")) = 0 ∧
    rarity_of (some vNull) = 0 :=
  ⟨rarity_normalization.2.1 2 (by decide),
   rarity_normalization.2.2.2.1 "1" 1 (by decide) (by decide),
   rarity_normalization.2.2.1 5 (by decide),
   rarity_normalization.2.2.2.2.1 "abc" (by decide),
   rarity_normalization.2.2.2.2.2.2.2⟩

/-- C4: shortDescription derivation; a text description longer than 100
characters yields its first 100 characters plus an ellipsis, a nonempty
text of at most 100 characters is returned unchanged, and an empty, NULL
or absent description yields the fallback placeholder. -/
theorem short_description_derivation :
    ∀ (r : Row) (comp : Company) (s : String),
      transform_company_data r = Except.ok comp →
      (rowGet r "czym_zajmuje_sie_firma" = some (vText s) →
        ((100 < s.length →
            comp.shortDescription = vText (String.mk (s.toList.take 100) ++ "...")) ∧
         (s ≠ "" → s.length ≤ 100 → comp.shortDescription = vText s) ∧
         (s = "" → comp.shortDescription = vText "Sprawdź szczegóły"))) ∧
      ((rowGet r "czym_zajmuje_sie_firma" = some vNull ∨
        rowGet r "czym_zajmuje_sie_firma" = none) →
        comp.shortDescription = vText "Sprawdź szczegóły") := by
  intro r comp s htr
  obtain ⟨-, -, -, -, hsd⟩ := transform_fields r comp htr
  constructor
  · intro hrow
    rw [shortDescription_of, hrow] at hsd
    simp only [Option.getD_some, pyStr, pyTruthy] at hsd
    refine ⟨?_, ?_, ?_⟩
    · intro hlen
      have hne : s ≠ "" := by
        intro he
        subst he
        simp at hlen
      simp [hne, hlen] at hsd
      exact hsd.symm
    · intro hne hle
      have hnl : ¬ (100 < s.length) := by omega
      simp [hne, hnl] at hsd
      exact hsd.symm
    · intro he
      subst he
      simp at hsd
      exact hsd.symm
  · intro hrow
    rcases hrow with h | h <;> rw [shortDescription_of, h] at hsd <;>
      simp [pyTruthy] at hsd <;> exact hsd.symm

/-- Description string of 150 characters used as a concrete instance. -/
def c4longS : String := String.mk (List.replicate 150 'a')

/-- Row holding the 150 character description. -/
def c4row : Row := [("czym_zajmuje_sie_firma", vText c4longS)]

/-- Transformed record of c4row. -/
def c4comp : Company :=
  ⟨vNull, vText "", vText "", vText "", ["Sprawdź na miejscu"],
   vText (String.mk (List.replicate 100 'a') ++ "..."), vText c4longS,
   vText "", vText "", 0, []⟩

/-- Row holding a short 5 character description. -/
def c4rowB : Row := [("czym_zajmuje_sie_firma", vText "hello")]

/-- Transformed record of c4rowB. -/
def c4compB : Company :=
  ⟨vNull, vText "", vText "", vText "", ["Sprawdź na miejscu"],
   vText "hello", vText "hello", vText "", vText "", 0, []⟩


set_option maxRecDepth 4000 in
/-- Concrete instances of the shortDescription derivation theorem: the 150
character description is truncated to 100 characters plus ellipsis, and a
5 character description is unchanged. -/
theorem short_description_derivation_witness :
    c4comp.shortDescription = vText (String.mk (c4longS.toList.take 100) ++ "...") ∧
    c4compB.shortDescription = vText "hello" :=
  ⟨((short_description_derivation c4row c4comp c4longS (by rfl)).1 (by rfl)).1 (by decide),
   (((short_description_derivation c4rowB c4compB "hello" (by rfl)).1 (by rfl)).2.1
     (by decide) (by decide))⟩

theorem hook_of_spec (r : Row) (k : String) (h : textOrNull (rowGet r k) = true) :
    hook_of r k = (match rowGet r k with
      | some (vText s) => if pyStrip s = "" then none else some (pyStrip s)
      | _ => none) := by
  rw [hook_of]
  cases hv : rowGet r k with
  | none => rfl
  | some v =>
      cases v with
      | vNull => simp [pyTruthy]
      | vInt i => rw [hv] at h; simp [textOrNull] at h
      | vText s =>
          simp only [pyTruthy, pyStr]
          by_cases hs : s = ""
          · subst hs
            simp [pyStrip, pyStripL, isPySpace]
          · by_cases hps : pyStrip s = "" <;> simp [hs, hps]

/-- C5: hook extraction; for hook columns holding TEXT or NULL (the shapes
of the free text data model), the transformed hooks list is exactly the
stripped values of the hook fields whose stripped form is nonempty, in the
order zaczepka1, zaczepka2, zaczepka3; NULL, absent, empty and whitespace
only hooks are dropped. -/
theorem hook_extraction :
    ∀ (r : Row) (comp : Company),
      transform_company_data r = Except.ok comp →
      textOrNull (rowGet r "zaczepka1") = true →
      textOrNull (rowGet r "zaczepka2") = true →
      textOrNull (rowGet r "zaczepka3") = true →
      comp.hooks = hooks_spec
        [rowGet r "zaczepka1", rowGet r "zaczepka2", rowGet r "zaczepka3"] := by
  intro r comp htr h1 h2 h3
  obtain ⟨-, -, -, hh, -⟩ := transform_fields r comp htr
  rw [hh, hooks_of, hooks_spec]
  simp only [List.filterMap_cons, List.filterMap_nil]
  rw [hook_of_spec r "zaczepka1" h1, hook_of_spec r "zaczepka2" h2,
     hook_of_spec r "zaczepka3" h3]

/-- Row whose hooks are the empty string, a whitespace only string, and a
real conversation starter. -/
def c5row : Row :=
  [("zaczepka1", vText ""), ("zaczepka2", vText "  "),
   ("zaczepka3", vText "Ask about pricing")]

/-- Transformed record of c5row. -/
def c5comp : Company :=
  ⟨vNull, vText "", vText "", vText "", ["Sprawdź na miejscu"],
   vText "Sprawdź szczegóły", vText "", vText "", vText "", 0,
   ["Ask about pricing"]⟩

/-- Concrete instance of the hook extraction theorem: blanks are dropped
and the single real hook survives. -/
theorem hook_extraction_witness :
    c5comp.hooks = hooks_spec
      [rowGet c5row "zaczepka1", rowGet c5row "zaczepka2",
       rowGet c5row "zaczepka3"] ∧
    c5comp.hooks = ["Ask about pricing"] :=
  ⟨hook_extraction c5row c5comp (by rfl) (by decide) (by decide) (by decide),
   rfl⟩

/-- C10: a column present with a stored NULL passes through as null while
the empty string default of dict.get applies only to an absent key, for
the name, boothNumber and country fields. -/
theorem null_vs_absent_fields :
    ∀ (r : Row) (comp : Company),
      transform_company_data r = Except.ok comp →
      ((rowGet r "company" = some vNull → comp.name = vNull) ∧
       (rowGet r "company" = none → comp.name = vText "") ∧
       (rowGet r "stand" = some vNull → comp.boothNumber = vNull) ∧
       (rowGet r "stand" = none → comp.boothNumber = vText "") ∧
       (rowGet r "country" = some vNull → comp.country = vNull) ∧
       (rowGet r "country" = none → comp.country = vText "")) := by
  intro r comp htr
  obtain ⟨hn, hb, hc, -, -⟩ := transform_fields r comp htr
  refine ⟨?_, ?_, ?_, ?_, ?_, ?_⟩ <;> intro h <;>
    simp [hn, hb, hc, pyGetD, h]

/-- Row whose company column holds NULL while the country column is absent
and the stand column holds text. -/
def c10row : Row := [("company", vNull), ("stand", vText "A1")]

/-- Transformed record of c10row. -/
def c10comp : Company :=
  ⟨vNull, vNull, vText "A1", vText "", ["Sprawdź na miejscu"],
   vText "Sprawdź szczegóły", vText "", vText "", vText "", 0, []⟩

/-- Concrete instance of the null versus absent distinction: the present
NULL company yields a null name while the absent country yields the empty
string. -/
theorem null_vs_absent_fields_witness :
    c10comp.name = vNull ∧ c10comp.country = vText "" :=
  ⟨(null_vs_absent_fields c10row c10comp (by rfl)).1 (by decide),
   (null_vs_absent_fields c10row c10comp (by rfl)).2.2.2.2.2 (by decide)⟩

/-- C6: priority filter expansion; a nonempty token whose lowercase form
is one of tak, yes, 1, true, warto matches exactly the stored TEXT values
1, tak, yes; one of nie, no, 0, false matches exactly the stored TEXT
values 0, nie, no; any other token is an exact match predicate against the
raw stored value compared as TEXT. -/
theorem priority_filter_expansion :
    ∀ (p : String) (v : Value), p ≠ "" →
      (yesTokens.contains (pyLower p) = true →
        (priorityCond p v = true ↔
          (v = vText "1" ∨ v = vText "tak" ∨ v = vText "yes"))) ∧
      (noTokens.contains (pyLower p) = true →
        (priorityCond p v = true ↔
          (v = vText "0" ∨ v = vText "nie" ∨ v = vText "no"))) ∧
      (yesTokens.contains (pyLower p) = false →
        noTokens.contains (pyLower p) = false →
        (priorityCond p v = true ↔ v = vText p)) := by
  intro p v hp
  refine ⟨?_, ?_, ?_⟩
  · intro hy
    rw [priorityCond, if_pos hy]
    simp only [Bool.or_eq_true, sqliteEq_text_iff]
    tauto
  · intro hn
    have hmem : pyLower p = "nie" ∨ pyLower p = "no" ∨ pyLower p = "0" ∨
        pyLower p = "false" := by
      simp [noTokens] at hn
      tauto
    have hy : yesTokens.contains (pyLower p) = false := by
      rcases hmem with h|h|h|h <;> rw [h] <;> decide
    have hy2 : ¬ (yesTokens.contains (pyLower p) = true) := by
      rw [hy]
      exact Bool.false_ne_true
    rw [priorityCond, if_neg hy2, if_pos hn]
    simp only [Bool.or_eq_true, sqliteEq_text_iff]
    tauto
  · intro hy hn
    have hy2 : ¬ (yesTokens.contains (pyLower p) = true) := by
      rw [hy]
      exact Bool.false_ne_true
    have hn2 : ¬ (noTokens.contains (pyLower p) = true) := by
      rw [hn]
      exact Bool.false_ne_true
    rw [priorityCond, if_neg hy2, if_neg hn2]
    exact sqliteEq_text_iff v p

/-- Concrete instances of the priority filter expansion: the uppercase
token TAK matches the stored text yes, the token nie matches the stored
text no, and the unrecognized token 2 matches the stored text 2 exactly. -/
theorem priority_filter_expansion_witness :
    priorityCond "TAK" (vText "yes") = true ∧
    priorityCond "nie" (vText "no") = true ∧
    priorityCond "2" (vText "2") = true :=
  ⟨((priority_filter_expansion "TAK" (vText "yes") (by decide)).1
      (by decide)).mpr (Or.inr (Or.inr rfl)),
   ((priority_filter_expansion "nie" (vText "no") (by decide)).2.1
      (by decide)).mpr (Or.inr (Or.inr rfl)),
   ((priority_filter_expansion "2" (vText "2") (by decide)).2.2
      (by decide) (by decide)).mpr rfl⟩

/-- C7: search predicate construction; for a nonempty search text the
WHERE clause gains exactly one LIKE predicate on the company column when
searchBy is company, exactly one on the stand column when searchBy is
stand, and for any other selector no search predicate at all, so the
search text has no effect on which rows match. -/
theorem search_predicate_construction :
    ∀ (s sb p : String) (r : Row), s ≠ "" →
      (sb = "company" →
        rowMatches s sb p r =
          (sqlLikeVal (pyGet r "company") (likePat s) && rowMatches "" sb p r)) ∧
      (sb = "stand" →
        rowMatches s sb p r =
          (sqlLikeVal (pyGet r "stand") (likePat s) && rowMatches "" sb p r)) ∧
      (sb ≠ "company" → sb ≠ "stand" →
        rowMatches s sb p r = rowMatches "" sb p r) := by
  intro s sb p r hs
  refine ⟨?_, ?_, ?_⟩
  · intro h1
    subst h1
    simp [rowMatches, searchConds, hs]
  · intro h1
    subst h1
    simp [rowMatches, searchConds, hs]
  · intro h1 h2
    simp [rowMatches, searchConds, hs, h1, h2]

/-- Concrete instances of the search predicate construction: with the
unrecognized selector name the search text does not change the match, and
with the company selector the LIKE predicate on the company column is the
only added conjunct. -/
theorem search_predicate_construction_witness :
    rowMatches "Acme" "name" "" [("company", vText "Other")] =
      rowMatches "" "name" "" [("company", vText "Other")] ∧
    rowMatches "Acme" "company" "" [("company", vText "Other")] =
      (sqlLikeVal (pyGet [("company", vText "Other")] "company") (likePat "Acme") &&
        rowMatches "" "company" "" [("company", vText "Other")]) :=
  ⟨(search_predicate_construction "Acme" "name" "" [("company", vText "Other")]
      (by decide)).2.2 (by decide) (by decide),
   (search_predicate_construction "Acme" "company" "" [("company", vText "Other")]
      (by decide)).1 rfl⟩

/-- C9: Create validation; when the body is absent, or the company field
is missing, null or the empty string, add_company answers 400 and leaves
the database unchanged, whatever the connection outcome. -/
theorem create_validation :
    ∀ (db : DB) (connOk : Bool) (body : Option Row),
      (body = none ∨
        ∃ data, body = some data ∧
          (rowGet data "company" = none ∨ rowGet data "company" = some vNull ∨
           rowGet data "company" = some (vText ""))) →
      add_company connOk body db = (ApiResponse.err400, db) := by
  intro db connOk body h
  rcases h with h | ⟨data, hb, hc⟩
  · subst h
    rfl
  · subst hb
    have ht : pyTruthy (pyGet data "company") = false := by
      rcases hc with h|h|h <;> simp [pyGet, h, pyTruthy]
    simp [add_company, ht]

/-- Concrete instances of the Create validation: an absent body and an
empty company name both answer 400 on a one row database and insert
nothing. -/
theorem create_validation_witness :
    add_company true none ⟨[[("id", vInt 1)]], 2⟩ =
      (ApiResponse.err400, ⟨[[("id", vInt 1)]], 2⟩) ∧
    add_company true (some [("company", vText "")]) ⟨[[("id", vInt 1)]], 2⟩ =
      (ApiResponse.err400, ⟨[[("id", vInt 1)]], 2⟩) :=
  ⟨create_validation ⟨[[("id", vInt 1)]], 2⟩ true none (Or.inl rfl),
   create_validation ⟨[[("id", vInt 1)]], 2⟩ true (some [("company", vText "")])
     (Or.inr ⟨[("company", vText "")], rfl, Or.inr (Or.inr (by decide))⟩)⟩

/-- C8: for an id matching no stored row, Delete answers 404 and leaves
the stored rows unchanged, and Update with a valid storable body answers
404 and writes nothing to any row. -/
theorem missing_id_delete_update :
    ∀ (db : DB) (cid : Int) (data : Row),
      (∀ r ∈ db.rows, rowIdMatches r cid = false) →
      data ≠ [] → (updParams data).all storable = true →
      delete_company true cid db = (ApiResponse.err404, db) ∧
      update_company true cid (some data) db = (ApiResponse.err404, db) := by
  intro db cid data hmatch hdata hstor
  obtain ⟨rows, nid⟩ := db
  simp only [DB.rows] at hmatch
  have hcount : rows.countP (fun r => rowIdMatches r cid) = 0 :=
    List.countP_eq_zero.mpr (by intro a ha; simp [hmatch a ha])
  constructor
  · have hfilter : rows.filter (fun r => !rowIdMatches r cid) = rows :=
      List.filter_eq_self.mpr (by intro a ha; simp [hmatch a ha])
    simp [delete_company, hcount, hfilter]
  · have h1 : ∀ a ∈ rows,
        (if rowIdMatches a cid then applyUpdate a data else a) = id a := by
      intro a ha
      simp [hmatch a ha]
    have hmap : rows.map (fun r => if rowIdMatches r cid then applyUpdate r data else r)
        = rows := by
      rw [List.map_congr_left h1, List.map_id]
    simp [update_company, hdata, hstor, hcount, hmap]

/-- Concrete instance of the missing id behavior: on a one row database
holding id 1, Delete and Update of id 5 both answer 404 and change
nothing. -/
theorem missing_id_delete_update_witness :
    delete_company true 5 ⟨[[("id", vInt 1)]], 2⟩ =
      (ApiResponse.err404, ⟨[[("id", vInt 1)]], 2⟩) ∧
    update_company true 5 (some [("company", vText "X")]) ⟨[[("id", vInt 1)]], 2⟩ =
      (ApiResponse.err404, ⟨[[("id", vInt 1)]], 2⟩) :=
  missing_id_delete_update ⟨[[("id", vInt 1)]], 2⟩ 5 [("company", vText "X")]
    (by decide) (by decide) (by decide)

/-- C1: Create followed by Get; when the rowid counter is fresh for the
stored rows, the body carries a nonempty string company and every bound
parameter is storable, Create answers 201 with the assigned id, and Get
by that id answers 200 with a transformed record whose name equals the
submitted company value. -/
theorem create_then_get :
    ∀ (db : DB) (data : Row) (c : String),
      (∀ r ∈ db.rows, rowIdMatches r db.nextId = false) →
      rowGet data "company" = some (vText c) → c ≠ "" →
      (addParams data).all storable = true →
      add_company true (some data) db =
        (ApiResponse.created201 db.nextId,
         ⟨db.rows ++ [newRowOf db.nextId data], db.nextId + 1⟩) ∧
      respName (get_company true db.nextId
        ⟨db.rows ++ [newRowOf db.nextId data], db.nextId + 1⟩) = some (vText c) := by
  intro db data c hfresh hcomp hc hstor
  have hne : ¬ (data = []) := by
    intro he
    subst he
    simp [rowGet] at hcomp
  have hpg : pyGet data "company" = vText c := by simp [pyGet, hcomp]
  have htru : pyTruthy (pyGet data "company") = true := by
    simp [hpg, pyTruthy, hc]
  constructor
  · simp [add_company, hne, htru, hstor]
  · have hmatch : rowIdMatches (newRowOf db.nextId data) db.nextId = true := by
      simp [rowIdMatches, pyGet, rowGet_newRow_id, sqliteEq]
    have hfind : ((db.rows ++ [newRowOf db.nextId data]).find?
        (fun r => rowIdMatches r db.nextId)) = some (newRowOf db.nextId data) := by
      rw [find?_append_of_none _ _ hfresh]
      simp [List.find?_cons, hmatch]
    have hdesc : ∀ v, rowGet (newRowOf db.nextId data) "czym_zajmuje_sie_firma" =
        some v → storable v = true := by
      intro v hv
      rw [rowGet_newRow_desc] at hv
      have hmem : pyGet data "czym_zajmuje_sie_firma" ∈ addParams data := by
        simp [addParams]
      have hsv := List.all_eq_true.mp hstor _ hmem
      simp only [Option.some_inj] at hv
      rw [hv] at hsv
      exact hsv
    obtain ⟨sd, hsd⟩ := shortDescription_of_ok (newRowOf db.nextId data) hdesc
    have htrans : transform_company_data (newRowOf db.nextId data) =
        Except.ok
          ⟨pyGet (newRowOf db.nextId data) "id",
           pyGetD (newRowOf db.nextId data) "company" (vText ""),
           pyGetD (newRowOf db.nextId data) "stand" (vText ""),
           pyGetD (newRowOf db.nextId data) "country" (vText ""),
           ["Sprawdź na miejscu"], sd,
           pyGetD (newRowOf db.nextId data) "czym_zajmuje_sie_firma" (vText ""),
           pyGetD (newRowOf db.nextId data) "problemy_i_wyzwania" (vText ""),
           pyGetD (newRowOf db.nextId data) "mozliwosci_AI_i_danych" (vText ""),
           rarity_of (rowGet (newRowOf db.nextId data) "czy_warto_sie_zainteresowac"),
           hooks_of (newRowOf db.nextId data)⟩ := by
      rw [transform_company_data, hsd]
    rw [get_company]
    simp only [Bool.not_true, Bool.false_eq_true, if_false]
    rw [hfind]
    simp [htrans, respName, pyGetD, rowGet_newRow_company, hpg]

/-- Concrete instance of Create followed by Get: inserting Acme into an
empty database assigns id 1, and Get of id 1 answers a record named
Acme. -/
theorem create_then_get_witness :
    add_company true (some [("company", vText "Acme")]) ⟨[], 1⟩ =
      (ApiResponse.created201 1,
       ⟨[newRowOf 1 [("company", vText "Acme")]], 2⟩) ∧
    respName (get_company true 1 ⟨[newRowOf 1 [("company", vText "Acme")]], 2⟩) =
      some (vText "Acme") := by
  have h := create_then_get ⟨[], 1⟩ [("company", vText "Acme")] "Acme"
    (by decide) (by decide) (by decide) (by decide)
  simpa using h

/-- C2 counterexample: in get_companies, when the work inside the try
block raises after get_db_connection succeeded, the handler returns the
caught exception 500 response with one connection still open, because no
close runs on that path. -/
theorem connection_release_counterexample :
    (get_companies_trace true ExecOutcome.raises).2 = 500 ∧
    openAfter (get_companies_trace true ExecOutcome.raises).1 = 1 := by
  decide

/-- C2 amended: the handlers release their connection on every exit path
except the caught exception path; the count of connections left open is 0
on success, 404 and early validation or connection failure paths, and
exactly 1 when an exception raised inside the try block after acquisition
is caught and answered with 500. -/
theorem connection_release_amended :
    ∀ (connOk bodyOk : Bool) (exec : ExecOutcome) (found : Bool),
      openAfter (get_companies_trace connOk exec).1 =
        (if connOk = true ∧ exec = ExecOutcome.raises then 1 else 0) ∧
      openAfter (update_company_trace bodyOk connOk exec found).1 =
        (if bodyOk = true ∧ connOk = true ∧ exec = ExecOutcome.raises then 1 else 0) := by
  intro connOk bodyOk exec found
  cases connOk <;> cases bodyOk <;> cases exec <;> cases found <;>
    simp [get_companies_trace, update_company_trace, openAfter]
